import Mathlib

/-!
Verification of the Interest Calculation form script
(`src/doctype/interest_calculation/interest_calculation.js`).

The script reacts to changes of the three input fields
`approved_amount`, `interest`, `tenure` of a loan-interest record,
recomputes `interest_amount` and `final_amount` with a fixed formula,
and installs a lookup filter on `full_name` keyed by the record's
`email` field.

We embed the record as a Lean structure.  The trigger fields may hold
anything the editing surface can produce (a number, a blank/missing
value, or a non-numeric string), so they are of a dedicated field-value
type; numeric values are modelled as exact rationals.
-/

namespace InterestCalculation

/-- A value held in one of the user-editable numeric fields of the
record: a numeric value, a blank/missing value, or a non-numeric
string. -/
inductive FieldValue where
  | num (q : ℚ)
  | blank
  | nonNumeric (s : String)
deriving DecidableEq, Repr

/-- Whether a field value is numeric. -/
def FieldValue.isNumericVal : FieldValue → Bool
  | .num _ => true
  | _ => false

/-- The host framework's numeric coercion `flt`, per the framework's
documented convention quoted by the script's environment: a numeric
value passes through, a missing/blank/non-numeric value coerces to
zero. -/
def flt : FieldValue → ℚ
  | .num q => q
  | .blank => 0
  | .nonNumeric _ => 0

/-- The in-memory loan-interest record (`frm.doc`): three user-entered
trigger fields, two derived fields, and two identity fields used only
by the lookup filter. -/
structure Record where
  approved_amount : FieldValue
  interest : FieldValue
  tenure : FieldValue
  interest_amount : FieldValue
  final_amount : FieldValue
  full_name : String
  email : String
deriving DecidableEq, Repr

/-- `frm.set_value("interest_amount", v)`: writes the numeric value into
the `interest_amount` field of the record. -/
def set_value_interest_amount (r : Record) (v : ℚ) : Record :=
  { r with interest_amount := .num v }

/-- `frm.set_value("final_amount", v)`: writes the numeric value into
the `final_amount` field of the record. -/
def set_value_final_amount (r : Record) (v : ℚ) : Record :=
  { r with final_amount := .num v }

/-- `calculate_interest_amount(frm)` from the source:
```
const interest_amount = flt(frm.doc.approved_amount) * flt(frm.doc.interest) * flt(frm.doc.tenure)/100
frm.set_value("interest_amount", interest_amount)
frm.set_value("final_amount", interest_amount + flt(frm.doc.approved_amount))
```
The second `set_value` re-reads `frm.doc.approved_amount` after the
first write, exactly as the source does. -/
def calculate_interest_amount (frm : Record) : Record :=
  let interest_amount :=
    flt frm.approved_amount * flt frm.interest * flt frm.tenure / 100
  let frm1 := set_value_interest_amount frm interest_amount
  set_value_final_amount frm1 (interest_amount + flt frm1.approved_amount)

/-- The change handler registered for `approved_amount`. -/
def approved_amount_handler (frm : Record) : Record :=
  calculate_interest_amount frm

/-- The change handler registered for `interest`. -/
def interest_handler (frm : Record) : Record :=
  calculate_interest_amount frm

/-- The change handler registered for `tenure`. -/
def tenure_handler (frm : Record) : Record :=
  calculate_interest_amount frm

/-- The three trigger fields for which a change handler is
registered. -/
inductive TriggerField where
  | approved_amount
  | interest
  | tenure
deriving DecidableEq, Repr

/-- Dispatch of a field-change event to its registered handler. -/
def runHandler : TriggerField → Record → Record
  | .approved_amount, frm => approved_amount_handler frm
  | .interest, frm => interest_handler frm
  | .tenure, frm => tenure_handler frm

/-- Overwrite one trigger field of the record (the user edit that
precedes a change event). -/
def Record.setTrigger (r : Record) : TriggerField → FieldValue → Record
  | .approved_amount, v => { r with approved_amount := v }
  | .interest, v => { r with interest := v }
  | .tenure, v => { r with tenure := v }

/-- The filters object the `full_name` query callback returns:
`{ filters: { email: frm.doc.email } }`. -/
structure QueryFilters where
  email : String
deriving DecidableEq, Repr

/-- The form object: the record being edited together with the query
callback (if any) installed for the `full_name` lookup.  The callback
closes over the form, so it is modelled as a function of the record at
lookup time. -/
structure Form where
  doc : Record
  full_name_query : Option (Record → QueryFilters)

/-- The `setup` handler:
`frm.set_query("full_name", () => ({ filters: { email: frm.doc.email } }))`.
The installed callback reads `frm.doc.email` when invoked, not when
installed. -/
def setup (frm : Form) : Form :=
  { frm with full_name_query := some (fun doc => { email := doc.email }) }

/-- A candidate entry the lookup UI could offer for `full_name`. -/
structure Candidate where
  full_name : String
  email : String
deriving DecidableEq, Repr

/-- The host lookup provider: it evaluates the installed query callback
on the current record and keeps exactly the candidates matching the
returned filters; with no callback installed it keeps everything. -/
def apply_full_name_filter (frm : Form) (entries : List Candidate) :
    List Candidate :=
  match frm.full_name_query with
  | none => entries
  | some q => entries.filter (fun e => e.email = (q frm.doc).email)

end InterestCalculation

namespace InterestCalculation

/-- C1: for every record with numeric `approved_amount` A, `interest` I
and `tenure` T, `calculate_interest_amount` sets
`interest_amount = A*I*T/100` and `final_amount = interest_amount + A`. -/
theorem calc_formula (r : Record) (A I T : ℚ)
    (hA : r.approved_amount = .num A) (hI : r.interest = .num I)
    (hT : r.tenure = .num T) :
    (calculate_interest_amount r).interest_amount = .num (A * I * T / 100) ∧
    (calculate_interest_amount r).final_amount =
      .num (A * I * T / 100 + A) := by
  simp [calculate_interest_amount, set_value_interest_amount,
    set_value_final_amount, hA, hI, hT, flt]

/-- Witness for C1 at A = 1000, I = 5, T = 2. -/
theorem calc_formula_witness :
    (calculate_interest_amount
      ⟨.num 1000, .num 5, .num 2, .blank, .blank, "n", "e"⟩).interest_amount
        = .num (1000 * 5 * 2 / 100) ∧
    (calculate_interest_amount
      ⟨.num 1000, .num 5, .num 2, .blank, .blank, "n", "e"⟩).final_amount
        = .num (1000 * 5 * 2 / 100 + 1000) :=
  calc_formula ⟨.num 1000, .num 5, .num 2, .blank, .blank, "n", "e"⟩
    1000 5 2 rfl rfl rfl

/-- C2: after any of the three registered change handlers completes on
a record with numeric `approved_amount`, `interest` and `tenure`, the
record's `interest_amount` and `final_amount` equal the §4 formulas for
the current inputs.  The handler runs to completion inside a single
event turn, so the handler's post-state is the only state another
component can observe. -/
theorem handler_formula (f : TriggerField) (r : Record) (A I T : ℚ)
    (hA : r.approved_amount = .num A) (hI : r.interest = .num I)
    (hT : r.tenure = .num T) :
    (runHandler f r).interest_amount = .num (A * I * T / 100) ∧
    (runHandler f r).final_amount = .num (A * I * T / 100 + A) := by
  cases f <;>
    simp [runHandler, approved_amount_handler, interest_handler,
      tenure_handler, calculate_interest_amount, set_value_interest_amount,
      set_value_final_amount, hA, hI, hT, flt]

/-- Witness for C2: the `tenure` handler at A = 2500, I = 0, T = 12. -/
theorem handler_formula_witness :
    (runHandler .tenure
      ⟨.num 2500, .num 0, .num 12, .blank, .blank, "n", "e"⟩).interest_amount
        = .num (2500 * 0 * 12 / 100) ∧
    (runHandler .tenure
      ⟨.num 2500, .num 0, .num 12, .blank, .blank, "n", "e"⟩).final_amount
        = .num (2500 * 0 * 12 / 100 + 2500) :=
  handler_formula .tenure
    ⟨.num 2500, .num 0, .num 12, .blank, .blank, "n", "e"⟩
    2500 0 12 rfl rfl rfl

/-- C3: a missing, blank or non-numeric trigger field is treated as 0
in the formula: overwriting such a field with the numeric value 0
changes neither computed output.  In particular a record with blank
`tenure` gets `interest_amount = 0` and
`final_amount = flt approved_amount`. -/
theorem calc_nonnumeric_as_zero (r : Record) (f : TriggerField)
    (v : FieldValue) (hv : v.isNumericVal = false) :
    ((calculate_interest_amount (r.setTrigger f v)).interest_amount =
        (calculate_interest_amount (r.setTrigger f (.num 0))).interest_amount ∧
      (calculate_interest_amount (r.setTrigger f v)).final_amount =
        (calculate_interest_amount (r.setTrigger f (.num 0))).final_amount) ∧
    (r.tenure = .blank →
      (calculate_interest_amount r).interest_amount = .num 0 ∧
      (calculate_interest_amount r).final_amount =
        .num (flt r.approved_amount)) := by
  constructor
  · cases v with
    | num q => simp [FieldValue.isNumericVal] at hv
    | blank =>
        cases f <;>
          simp [Record.setTrigger, calculate_interest_amount,
            set_value_interest_amount, set_value_final_amount, flt]
    | nonNumeric s =>
        cases f <;>
          simp [Record.setTrigger, calculate_interest_amount,
            set_value_interest_amount, set_value_final_amount, flt]
  · intro hT
    simp [calculate_interest_amount, set_value_interest_amount,
      set_value_final_amount, hT, flt]

/-- Witness for C3: blank `tenure` on a record with
`approved_amount = 7`. -/
theorem calc_nonnumeric_as_zero_witness :
    ((calculate_interest_amount (Record.setTrigger
        ⟨.num 7, .num 3, .blank, .blank, .blank, "n", "e"⟩
        .tenure .blank)).interest_amount =
      (calculate_interest_amount (Record.setTrigger
        ⟨.num 7, .num 3, .blank, .blank, .blank, "n", "e"⟩
        .tenure (.num 0))).interest_amount ∧
     (calculate_interest_amount (Record.setTrigger
        ⟨.num 7, .num 3, .blank, .blank, .blank, "n", "e"⟩
        .tenure .blank)).final_amount =
      (calculate_interest_amount (Record.setTrigger
        ⟨.num 7, .num 3, .blank, .blank, .blank, "n", "e"⟩
        .tenure (.num 0))).final_amount) ∧
    (Record.tenure ⟨.num 7, .num 3, .blank, .blank, .blank, "n", "e"⟩ =
        .blank →
      (calculate_interest_amount
        ⟨.num 7, .num 3, .blank, .blank, .blank, "n", "e"⟩).interest_amount =
          .num 0 ∧
      (calculate_interest_amount
        ⟨.num 7, .num 3, .blank, .blank, .blank, "n", "e"⟩).final_amount =
          .num (flt (FieldValue.num 7))) :=
  calc_nonnumeric_as_zero
    ⟨.num 7, .num 3, .blank, .blank, .blank, "n", "e"⟩ .tenure .blank rfl

/-- C4: after `setup`, the installed `full_name` lookup filter keeps
exactly the candidates whose `email` equals the record's `email` as it
stands at lookup time (here `doc'`, which may differ from the record at
setup time). -/
theorem setup_filter_exact (frm : Form) (doc' : Record)
    (entries : List Candidate) (e : Candidate) :
    e ∈ apply_full_name_filter { setup frm with doc := doc' } entries ↔
      e ∈ entries ∧ e.email = doc'.email := by
  simp [apply_full_name_filter, setup, List.mem_filter]

/-- C5: `calculate_interest_amount` is idempotent: a second invocation
with unchanged inputs leaves both derived fields exactly as a single
invocation does. -/
theorem calc_idempotent (r : Record) :
    calculate_interest_amount (calculate_interest_amount r) =
      calculate_interest_amount r := rfl

/-- C6: the spec's concrete scenarios: (1000, 5, 2) ↦ (100, 1100);
(2500, 0, 12) ↦ (0, 2500); (1500.5, 3.25, 4) ↦ (195.065, 1695.565). -/
theorem calc_scenarios :
    ((calculate_interest_amount
      ⟨.num 1000, .num 5, .num 2, .blank, .blank, "n", "e"⟩).interest_amount
        = .num 100 ∧
     (calculate_interest_amount
      ⟨.num 1000, .num 5, .num 2, .blank, .blank, "n", "e"⟩).final_amount
        = .num 1100) ∧
    ((calculate_interest_amount
      ⟨.num 2500, .num 0, .num 12, .blank, .blank, "n", "e"⟩).interest_amount
        = .num 0 ∧
     (calculate_interest_amount
      ⟨.num 2500, .num 0, .num 12, .blank, .blank, "n", "e"⟩).final_amount
        = .num 2500) ∧
    ((calculate_interest_amount
      ⟨.num (30010/20), .num (65/20), .num 4, .blank, .blank,
        "n", "e"⟩).interest_amount = .num (195065/1000) ∧
     (calculate_interest_amount
      ⟨.num (30010/20), .num (65/20), .num 4, .blank, .blank,
        "n", "e"⟩).final_amount = .num (1695565/1000)) := by
  refine ⟨⟨?_, ?_⟩, ⟨?_, ?_⟩, ⟨?_, ?_⟩⟩ <;>
    simp [calculate_interest_amount, set_value_interest_amount,
      set_value_final_amount, flt] <;> norm_num

/-- C7: `calculate_interest_amount` never fails: it is a total function
on records of any shape (negative, extreme, missing or non-numeric
field values included), with no error branch — every run completes and
writes numeric values into both derived fields. -/
theorem calc_total (r : Record) :
    (calculate_interest_amount r).interest_amount.isNumericVal = true ∧
    (calculate_interest_amount r).final_amount.isNumericVal = true := by
  simp [calculate_interest_amount, set_value_interest_amount,
    set_value_final_amount, FieldValue.isNumericVal]

/-- C8: `calculate_interest_amount` mutates only the two derived
fields; `approved_amount`, `interest`, `tenure`, `full_name` and
`email` are unchanged. -/
theorem calc_frame (r : Record) :
    (calculate_interest_amount r).approved_amount = r.approved_amount ∧
    (calculate_interest_amount r).interest = r.interest ∧
    (calculate_interest_amount r).tenure = r.tenure ∧
    (calculate_interest_amount r).full_name = r.full_name ∧
    (calculate_interest_amount r).email = r.email :=
  ⟨rfl, rfl, rfl, rfl, rfl⟩

/-- C9: after `calculate_interest_amount`, the difference
`final_amount - interest_amount` equals the zero-coerced numeric value
of `approved_amount`, whatever `interest` and `tenure` hold. -/
theorem calc_difference (r : Record) :
    flt (calculate_interest_amount r).final_amount -
      flt (calculate_interest_amount r).interest_amount =
        flt r.approved_amount := by
  simp [calculate_interest_amount, set_value_interest_amount,
    set_value_final_amount, flt]

/-- C10: the outputs of `calculate_interest_amount` depend only on
`approved_amount`, `interest` and `tenure`: two records agreeing on
those three fields get identical `interest_amount` and `final_amount`,
whatever their `full_name`, `email` or prior derived values. -/
theorem calc_depends_only_on_inputs (r₁ r₂ : Record)
    (hA : r₁.approved_amount = r₂.approved_amount)
    (hI : r₁.interest = r₂.interest) (hT : r₁.tenure = r₂.tenure) :
    (calculate_interest_amount r₁).interest_amount =
      (calculate_interest_amount r₂).interest_amount ∧
    (calculate_interest_amount r₁).final_amount =
      (calculate_interest_amount r₂).final_amount := by
  simp [calculate_interest_amount, set_value_interest_amount,
    set_value_final_amount, hA, hI, hT]

/-- Witness for C10: two records sharing the three inputs but differing
in identity fields and prior derived values. -/
theorem calc_depends_only_on_inputs_witness :
    (calculate_interest_amount
      ⟨.num 10, .num 2, .num 5, .num 99, .blank, "a", "a@x.com"⟩).interest_amount =
    (calculate_interest_amount
      ⟨.num 10, .num 2, .num 5, .blank, .num 7, "b", "b@x.com"⟩).interest_amount ∧
    (calculate_interest_amount
      ⟨.num 10, .num 2, .num 5, .num 99, .blank, "a", "a@x.com"⟩).final_amount =
    (calculate_interest_amount
      ⟨.num 10, .num 2, .num 5, .blank, .num 7, "b", "b@x.com"⟩).final_amount :=
  calc_depends_only_on_inputs
    ⟨.num 10, .num 2, .num 5, .num 99, .blank, "a", "a@x.com"⟩
    ⟨.num 10, .num 2, .num 5, .blank, .num 7, "b", "b@x.com"⟩
    rfl rfl rfl

end InterestCalculation
